import Mathlib

/-!
Verification development for SimpleCarpoolComparison.py.

The program is a single Python class with three static operations:

* dist v1 v2 : the haversine great-circle distance between two
  (latitude, longitude) pairs, on a sphere of radius 6371.0 km;
* is_longer_trip x y : compares the two four-leg detour trips built from
  routes x = (a, b) and y = (c, d) and returns True exactly when the
  x-side trip is strictly longer;
* coordinate_to_float degrees minutes seconds sign : converts a
  degrees/minutes/seconds coordinate with a hemisphere flag to decimal
  degrees.

The numeric parts are embedded over the real numbers: Python float
literals such as 0.0 and 2.0 denote the corresponding real constants,
and math.sin, math.cos, math.sqrt, math.atan2 and math.radians are
modelled by their exact real counterparts.  The dynamic type-checking
cascades at the top of each Python function are embedded separately,
over a small universe of Python run-time values, with subscripting and
len modelled as fallible operations exactly as in CPython (an
out-of-range subscript is an IndexError, which is distinct from the
TypeError raised by the explicit checks; the message strings attached
to the TypeErrors are elided).
-/

namespace CarpoolSpec

/-- Universe of Python run-time values appearing in the program: floats,
ints, bools, strings and tuples. -/
inductive PyVal where
  | pyFloat (x : ℝ)
  | pyInt (n : ℤ)
  | pyBool (b : Bool)
  | pyStr (s : String)
  | pyTuple (elems : List PyVal)

/-- The two kinds of exception the validation code can produce: the
TypeError raised explicitly by the checks, and the IndexError raised by
an out-of-range tuple subscript. -/
inductive PyError where
  | typeError
  | indexError
deriving DecidableEq

/-- Python type test: is the value a tuple. -/
def PyVal.isTuple : PyVal → Bool
  | PyVal.pyTuple _ => true
  | _ => false

/-- Python type test: is the value a float. -/
def PyVal.isFloat : PyVal → Bool
  | PyVal.pyFloat _ => true
  | _ => false

/-- Python subscript v[i]: an IndexError when out of range on a tuple, a
TypeError on a non-subscriptable value. -/
def PyVal.subscript (v : PyVal) (i : Nat) : Except PyError PyVal :=
  match v with
  | PyVal.pyTuple elems =>
    match elems.get? i with
    | some w => Except.ok w
    | none => Except.error PyError.indexError
  | _ => Except.error PyError.typeError

/-- Python len(v): a TypeError on a value without a length. -/
def PyVal.pyLen (v : PyVal) : Except PyError Nat :=
  match v with
  | PyVal.pyTuple elems => Except.ok elems.length
  | _ => Except.error PyError.typeError

/-- The validation cascade at the top of is_longer_trip
(SimpleCarpoolComparison.py lines 121-160), check by check in source
order.  Note the check guarding y[1] re-tests len(y) where the parallel
x-side check at line 135 tests len(x[1]): this embeds line 155 as
written. -/
def is_longer_trip_check (x y : PyVal) : Except PyError Unit := do
  if ¬ x.isTuple then throw PyError.typeError
  let lx ← x.pyLen
  if lx ≠ 2 then throw PyError.typeError
  let x0 ← x.subscript 0
  if ¬ x0.isTuple then throw PyError.typeError
  let lx0 ← x0.pyLen
  if lx0 ≠ 2 then throw PyError.typeError
  let x00 ← x0.subscript 0
  if ¬ x00.isFloat then throw PyError.typeError
  let x01 ← x0.subscript 1
  if ¬ x01.isFloat then throw PyError.typeError
  let x1 ← x.subscript 1
  if ¬ x1.isTuple then throw PyError.typeError
  let lx1 ← x1.pyLen
  if lx1 ≠ 2 then throw PyError.typeError
  let x10 ← x1.subscript 0
  if ¬ x10.isFloat then throw PyError.typeError
  let x11 ← x1.subscript 1
  if ¬ x11.isFloat then throw PyError.typeError
  if ¬ y.isTuple then throw PyError.typeError
  let ly ← y.pyLen
  if ly ≠ 2 then throw PyError.typeError
  let y0 ← y.subscript 0
  if ¬ y0.isTuple then throw PyError.typeError
  let ly0 ← y0.pyLen
  if ly0 ≠ 2 then throw PyError.typeError
  let y00 ← y0.subscript 0
  if ¬ y00.isFloat then throw PyError.typeError
  let y01 ← y0.subscript 1
  if ¬ y01.isFloat then throw PyError.typeError
  let y1 ← y.subscript 1
  if ¬ y1.isTuple then throw PyError.typeError
  let ly1 ← y.pyLen
  if ly1 ≠ 2 then throw PyError.typeError
  let y10 ← y1.subscript 0
  if ¬ y10.isFloat then throw PyError.typeError
  let y11 ← y1.subscript 1
  if ¬ y11.isFloat then throw PyError.typeError
  return ()

/-- The class constant volumetric_mean_radius_kilometers = 6371.0. -/
noncomputable def volumetric_mean_radius_kilometers : ℝ := 6371.0

/-- math.radians: degrees to radians. -/
noncomputable def radians (x : ℝ) : ℝ := x * (Real.pi / 180)

/-- math.atan2 over the reals, by quadrant, as specified for the C
library function that Python exposes. -/
noncomputable def atan2 (y x : ℝ) : ℝ :=
  if 0 < x then Real.arctan (y / x)
  else if x = 0 then
    if 0 < y then Real.pi / 2
    else if y < 0 then -(Real.pi / 2)
    else 0
  else
    if 0 ≤ y then Real.arctan (y / x) + Real.pi
    else Real.arctan (y / x) - Real.pi

/-- The intermediate value a of dist (source comment:
half_chord_length_squared), built from the latitudes in radians and the
latitude/longitude deltas in radians exactly as at lines 228-248. -/
noncomputable def half_chord_length_squared (v1 v2 : ℝ × ℝ) : ℝ :=
  let v1a := radians v1.1
  let v2a := radians v2.1
  let lad := radians (v2.1 - v1.1)
  let lod := radians (v2.2 - v1.2)
  Real.sin (lad / 2.0) * Real.sin (lad / 2.0) +
    Real.cos v1a * Real.cos v2a *
    Real.sin (lod / 2.0) * Real.sin (lod / 2.0)

/-- dist (SimpleCarpoolComparison.py lines 219-259), on well-formed
points: R * c with c = 2 * atan2 (sqrt a) (sqrt (1 - a)). -/
noncomputable def dist (v1 v2 : ℝ × ℝ) : ℝ :=
  let R := volumetric_mean_radius_kilometers
  let a := half_chord_length_squared v1 v2
  let c := 2.0 * atan2 (Real.sqrt a) (Real.sqrt (1.0 - a))
  R * c

/-- is_longer_trip (lines 163-185), on well-formed routes: the two
four-point trips are summed leg by leg and the x trip is reported longer
exactly when the comparison xtrip > ytrip holds. -/
noncomputable def is_longer_trip (x y : (ℝ × ℝ) × (ℝ × ℝ)) : Bool :=
  let a := x.1
  let b := x.2
  let c := y.1
  let d := y.2
  let xtrip := 0.0 + dist a c + dist c d + dist d b
  let ytrip := 0.0 + dist c a + dist a b + dist b d
  if xtrip > ytrip then true else false

/-- coordinate_to_float (lines 262-291) on well-formed arguments.  The
arithmetic is on exact rationals: Python true division of ints by the
float literals 60.0 and 3600.0 is modelled exactly. -/
def coordinate_to_float (degrees minutes seconds : ℤ) (sign : Bool) : ℚ :=
  let ret : ℚ := (degrees : ℚ) + 0.0
  let ret : ℚ := ret + (minutes : ℚ) / 60.0
  let ret : ℚ := ret + (seconds : ℚ) / 3600.0
  if sign then ret else -ret

/-- The haversine step of dist as the specification writes it: a with
squared half-angle sines, c = 2 * atan2 (sqrt a) (sqrt (1 - a)), and
distance = R * c with R = 6371.0. -/
noncomputable def dist_spec_formula (v1 v2 : ℝ × ℝ) : ℝ :=
  let R : ℝ := 6371.0
  let phi1 := radians v1.1
  let phi2 := radians v2.1
  let dphi := radians (v2.1 - v1.1)
  let dlambda := radians (v2.2 - v1.2)
  let a := Real.sin (dphi / 2) ^ 2 +
    Real.cos phi1 * Real.cos phi2 * Real.sin (dlambda / 2) ^ 2
  let c := 2 * atan2 (Real.sqrt a) (Real.sqrt (1 - a))
  R * c

/-- Half-angle identity used to bound the haversine intermediate. -/
theorem cos_eq_one_sub_two_sin_half_sq (t : ℝ) :
    Real.cos t = 1 - 2 * Real.sin (t / 2) ^ 2 := by
  have h2 := Real.cos_two_mul (t / 2)
  have h3 : 2 * (t / 2) = t := by ring
  rw [h3] at h2
  have h4 := Real.sin_sq_add_cos_sq (t / 2)
  nlinarith [h2, h4]

/-- The haversine intermediate sin ((v - u) / 2) ^ 2 + cos u * cos v *
sin (w / 2) ^ 2 lies in the unit interval for all real angles, even when
the latitudes fall outside the geographic range. -/
theorem haversine_term_bounds (u v w : ℝ) :
    0 ≤ Real.sin ((v - u) / 2) ^ 2 +
        Real.cos u * Real.cos v * Real.sin (w / 2) ^ 2 ∧
    Real.sin ((v - u) / 2) ^ 2 +
        Real.cos u * Real.cos v * Real.sin (w / 2) ^ 2 ≤ 1 := by
  have h1 := cos_eq_one_sub_two_sin_half_sq (v - u)
  have h2 := cos_eq_one_sub_two_sin_half_sq w
  have e1 := Real.cos_sub v u
  have e2 := Real.cos_sub u v
  have e3 := Real.cos_add u v
  have c1 := Real.neg_one_le_cos w
  have c2 := Real.cos_le_one w
  have d1 := Real.neg_one_le_cos (u - v)
  have d2 := Real.cos_le_one (u - v)
  have f1 := Real.neg_one_le_cos (u + v)
  have f2 := Real.cos_le_one (u + v)
  constructor
  · nlinarith [mul_nonneg (by linarith : (0:ℝ) ≤ 1 + Real.cos w)
        (by linarith : (0:ℝ) ≤ 1 - Real.cos (u - v)),
      mul_nonneg (by linarith : (0:ℝ) ≤ 1 - Real.cos w)
        (by linarith : (0:ℝ) ≤ 1 + Real.cos (u + v))]
  · nlinarith [mul_nonneg (by linarith : (0:ℝ) ≤ 1 + Real.cos w)
        (by linarith : (0:ℝ) ≤ 1 + Real.cos (u - v)),
      mul_nonneg (by linarith : (0:ℝ) ≤ 1 - Real.cos w)
        (by linarith : (0:ℝ) ≤ 1 - Real.cos (u + v))]

/-- Unfolded form of half_chord_length_squared with the latitude delta
split by linearity of radians. -/
theorem half_chord_eq (v1 v2 : ℝ × ℝ) :
    half_chord_length_squared v1 v2 =
      Real.sin ((radians v2.1 - radians v1.1) / 2) ^ 2 +
        Real.cos (radians v1.1) * Real.cos (radians v2.1) *
          Real.sin (radians (v2.2 - v1.2) / 2) ^ 2 := by
  simp only [half_chord_length_squared]
  have hr : radians (v2.1 - v1.1) = radians v2.1 - radians v1.1 := by
    simp only [radians]; ring
  rw [hr]
  norm_num
  ring

/-- The intermediate a is non-negative. -/
theorem half_chord_nonneg (v1 v2 : ℝ × ℝ) :
    0 ≤ half_chord_length_squared v1 v2 := by
  rw [half_chord_eq]
  exact (haversine_term_bounds (radians v1.1) (radians v2.1)
    (radians (v2.2 - v1.2))).1

/-- The intermediate a is at most one. -/
theorem half_chord_le_one (v1 v2 : ℝ × ℝ) :
    half_chord_length_squared v1 v2 ≤ 1 := by
  rw [half_chord_eq]
  exact (haversine_term_bounds (radians v1.1) (radians v2.1)
    (radians (v2.2 - v1.2))).2

/-- In the first quadrant atan2 is non-negative. -/
theorem atan2_nonneg (y x : ℝ) (hy : 0 ≤ y) (hx : 0 ≤ x) :
    0 ≤ atan2 y x := by
  unfold atan2
  rcases lt_or_eq_of_le hx with h | h
  · rw [if_pos h]
    have := Real.arctan_strictMono.monotone (div_nonneg hy h.le)
    rwa [Real.arctan_zero] at this
  · rw [if_neg (by rw [← h]; exact lt_irrefl 0), if_pos h.symm]
    rcases lt_or_eq_of_le hy with hy2 | hy2
    · rw [if_pos hy2]
      positivity
    · rw [if_neg (by rw [← hy2]; exact lt_irrefl 0),
        if_neg (by rw [← hy2]; exact lt_irrefl 0)]

/-- In the first quadrant atan2 is at most a right angle. -/
theorem atan2_le_pi_div_two (y x : ℝ) (hy : 0 ≤ y) (hx : 0 ≤ x) :
    atan2 y x ≤ Real.pi / 2 := by
  unfold atan2
  rcases lt_or_eq_of_le hx with h | h
  · rw [if_pos h]
    exact (Real.arctan_lt_pi_div_two _).le
  · rw [if_neg (by rw [← h]; exact lt_irrefl 0), if_pos h.symm]
    rcases lt_or_eq_of_le hy with hy2 | hy2
    · rw [if_pos hy2]
    · rw [if_neg (by rw [← hy2]; exact lt_irrefl 0),
        if_neg (by rw [← hy2]; exact lt_irrefl 0)]
      positivity

/-- atan2 0 1 = 0, the value reached by dist on two identical points. -/
theorem atan2_zero_one : atan2 0 1 = 0 := by
  unfold atan2
  rw [if_pos (by norm_num : (0:ℝ) < 1)]
  norm_num [Real.arctan_zero]

/-- The intermediate a is symmetric in its two points. -/
theorem half_chord_comm (p q : ℝ × ℝ) :
    half_chord_length_squared p q = half_chord_length_squared q p := by
  rw [half_chord_eq, half_chord_eq]
  have h1 : radians p.1 - radians q.1 = -(radians q.1 - radians p.1) := by ring
  have h2 : radians (p.2 - q.2) = -(radians (q.2 - p.2)) := by
    simp only [radians]; ring
  rw [h1, h2]
  simp only [neg_div, Real.sin_neg]
  ring

/-- The intermediate a vanishes on two identical points. -/
theorem half_chord_self (p : ℝ × ℝ) :
    half_chord_length_squared p p = 0 := by
  rw [half_chord_eq]
  simp [radians]

/-- C1: for all well-formed routes (a, b) and (c, d), is_longer_trip
returns exactly the truth value of xtrip > ytrip, where
xtrip = dist a c + dist c d + dist d b and
ytrip = dist c a + dist a b + dist b d; in particular a tie yields
false. -/
theorem is_longer_trip_iff_gt (a b c d : ℝ × ℝ) :
    is_longer_trip (a, b) (c, d) =
      decide (dist a c + dist c d + dist d b >
        dist c a + dist a b + dist b d) := by
  by_cases h : dist a c + dist c d + dist d b >
      dist c a + dist a b + dist b d
  · have h2 : (0.0:ℝ) + dist a c + dist c d + dist d b >
        0.0 + dist c a + dist a b + dist b d := by linarith
    simp only [is_longer_trip]
    rw [if_pos h2, decide_eq_true h]
  · have h2 : ¬ ((0.0:ℝ) + dist a c + dist c d + dist d b >
        0.0 + dist c a + dist a b + dist b d) := by
      intro hc
      exact h (by linarith)
    simp only [is_longer_trip]
    rw [if_neg h2, decide_eq_false h]

/-- C2: dist computes exactly the haversine formula as the specification
states it, with a the squared-half-angle form, c the atan2 combination
and the fixed radius 6371.0. -/
theorem dist_matches_spec_formula (v1 v2 : ℝ × ℝ) :
    dist v1 v2 = dist_spec_formula v1 v2 := by
  have ha : half_chord_length_squared v1 v2 =
      Real.sin (radians (v2.1 - v1.1) / 2) ^ 2 +
        Real.cos (radians v1.1) * Real.cos (radians v2.1) *
          Real.sin (radians (v2.2 - v1.2) / 2) ^ 2 := by
    simp only [half_chord_length_squared]
    norm_num
    ring
  simp only [dist, dist_spec_formula, volumetric_mean_radius_kilometers,
    ha]
  norm_num

/-- C4: for every well-formed pair of points, both arguments handed to
the square roots inside dist are non-negative, so the numeric
computation is total: validation is the only failure mode. -/
theorem dist_sqrt_arguments_nonneg (v1 v2 : ℝ × ℝ) :
    0 ≤ half_chord_length_squared v1 v2 ∧
    0 ≤ 1.0 - half_chord_length_squared v1 v2 := by
  have h0 := half_chord_nonneg v1 v2
  have h1 := half_chord_le_one v1 v2
  constructor
  · exact h0
  · linarith

/-- C5: dist always lies between 0 and half the great circle,
pi * 6371.0. -/
theorem dist_range (p q : ℝ × ℝ) :
    0 ≤ dist p q ∧ dist p q ≤ Real.pi * 6371.0 := by
  have hy : (0:ℝ) ≤ Real.sqrt (half_chord_length_squared p q) :=
    Real.sqrt_nonneg _
  have hx : (0:ℝ) ≤
      Real.sqrt (1.0 - half_chord_length_squared p q) :=
    Real.sqrt_nonneg _
  have ha := atan2_nonneg _ _ hy hx
  have hb := atan2_le_pi_div_two _ _ hy hx
  have hpi := Real.pi_pos
  simp only [dist, volumetric_mean_radius_kilometers]
  constructor
  · nlinarith [ha]
  · nlinarith [hb]

/-- C6: dist is symmetric in its two points, exactly, in the real-number
model. -/
theorem dist_symmetric (p q : ℝ × ℝ) : dist p q = dist q p := by
  simp only [dist]
  rw [half_chord_comm p q]

/-- C7: dist returns exactly 0 on two identical points. -/
theorem dist_self_eq_zero (p : ℝ × ℝ) : dist p p = 0 := by
  simp only [dist, half_chord_self]
  norm_num [Real.sqrt_zero, Real.sqrt_one, atan2_zero_one]

/-- C8: coordinate_to_float returns degrees + minutes/60 + seconds/3600
when the hemisphere flag is true, and the negation of that value when it
is false. -/
theorem coordinate_to_float_spec (d m s : ℤ) :
    coordinate_to_float d m s true =
      (d : ℚ) + (m : ℚ) / 60 + (s : ℚ) / 3600 ∧
    coordinate_to_float d m s false =
      -((d : ℚ) + (m : ℚ) / 60 + (s : ℚ) / 3600) := by
  constructor
  · simp only [coordinate_to_float, if_true]
    norm_num
  · simp only [coordinate_to_float, Bool.false_eq_true, if_false]
    norm_num

/-- C9: coordinate_to_float 40 45 6 true lies strictly within the
one-tenth-percent testing tolerance around 40.7517, bounds stated as in
the within_tolerance helper of the self-test harness. -/
theorem coordinate_to_float_new_york_latitude :
    (40.7517 : ℚ) - 40.7517 * 0.001 < coordinate_to_float 40 45 6 true ∧
    coordinate_to_float 40 45 6 true < 40.7517 + 40.7517 * 0.001 := by
  constructor
  · simp only [coordinate_to_float, if_true]
    norm_num
  · simp only [coordinate_to_float, if_true]
    norm_num

/-- C10: comparing a route against itself yields identical trip sums, so
is_longer_trip returns false by the tie-break. -/
theorem is_longer_trip_self_false (x : (ℝ × ℝ) × (ℝ × ℝ)) :
    is_longer_trip x x = false := by
  simp only [is_longer_trip]
  rw [if_neg (lt_irrefl _)]

/-- C3: the validation cascade of is_longer_trip is not complete: when
the second point of the second route is an undersized tuple, the re-test
of len y at source line 155 (in place of len y[1]) lets control reach
the subscript y[1][1], which raises IndexError rather than the TypeError
the claim requires for every malformed shape. -/
theorem is_longer_trip_check_undersized_index_error :
    is_longer_trip_check
      (PyVal.pyTuple [PyVal.pyTuple [PyVal.pyFloat 0, PyVal.pyFloat 0],
        PyVal.pyTuple [PyVal.pyFloat 0, PyVal.pyFloat 0]])
      (PyVal.pyTuple [PyVal.pyTuple [PyVal.pyFloat 0, PyVal.pyFloat 0],
        PyVal.pyTuple [PyVal.pyFloat 1]]) =
      Except.error PyError.indexError := rfl

end CarpoolSpec
